import Mathlib

/-
Verification development for the django-quant-ohlc-engine trading core.

The definitions below are a shallow embedding of the Python source:

  * trading/services/order_service.py  (OrderService._sync_position,
    OrderService.place_order)
  * trading/engine/ema_pipeline.py     (run_ema_pipeline)
  * trading/engine/trading_engine.py   (TradingEngine.run freshness gate)
  * trading/engine/batch_engine.py     (BatchTradingEngine.run)
  * trading/models.py                  (TradeState)

Conventions: Python floats are modelled as exact rationals, datetimes as
integer microsecond counts, machine exceptions as the error branch of
Except String, and the Django TradeState row for the one instrument a
call touches as an Option TradeState (none = row absent, creation by
get_or_create yields some).
-/

/-- TradeState row from trading/models.py: the Position Ledger entry for
one instrument. position has choices NONE / LONG with default NONE;
last_signal defaults to NONE; updated_at defaults to the current time. -/
structure TradeState where
  position : String
  last_signal : String
  updated_at : Int
deriving DecidableEq, Repr

/-- Freshly created TradeState row (get_or_create defaults), created at
time now. -/
def mkTradeState (now : Int) : TradeState :=
  { position := "NONE", last_signal := "NONE", updated_at := now }

/-- One entry of the broker position response data list (fields used by
OrderService._sync_position). -/
structure PositionEntry where
  tradingsymbol : String
  netqty : Int
deriving DecidableEq, Repr

/-- Broker response to smart.position(). -/
structure PositionsResp where
  status : Bool
  data : List PositionEntry
deriving DecidableEq, Repr

/-- Broker response to smart.placeOrder: a bare string order id, a dict
with status / message / data(order id), or some other value. -/
inductive PlaceResp where
  | asStr (s : String)
  | asDict (status : Bool) (message : Option String) (data : Option String)
  | other
deriving DecidableEq, Repr

/-- One entry of the broker order book data list (fields used by
OrderService.place_order). -/
structure OrderBookEntry where
  orderid : String
  orderstatus : String
deriving DecidableEq, Repr

/-- Broker response to smart.orderBook(). -/
structure OrderBookResp where
  status : Bool
  data : List OrderBookEntry
deriving DecidableEq, Repr

/-- Decidable equality for Except values, used to evaluate concrete
broker environments. -/
instance {ε α : Type} [DecidableEq ε] [DecidableEq α] :
    DecidableEq (Except ε α) := fun a b =>
  match a, b with
  | .error e, .error f =>
    if h : e = f then .isTrue (by rw [h])
    else .isFalse (fun hc => h (Except.error.inj hc))
  | .ok x, .ok y =>
    if h : x = y then .isTrue (by rw [h])
    else .isFalse (fun hc => h (Except.ok.inj hc))
  | .error e, .ok y => .isFalse (fun hc => Except.noConfusion hc)
  | .ok x, .error f => .isFalse (fun hc => Except.noConfusion hc)

/-- The broker behaviour observed by one place_order call: each network
call either returns a value or raises (Except.error carries str(e)). -/
structure Broker where
  positionResp : Except String PositionsResp
  placeOrderResp : Except String PlaceResp
  orderBookResp : Except String OrderBookResp
deriving DecidableEq, Repr

/-- Result dict of OrderService.place_order (the fields the claims
inspect; the remaining keys of the Python dict are diagnostic
passthrough data). -/
structure OrderResult where
  status : String
  reason : Option String := none
  errorMsg : Option String := none
  order_id : Option String := none
deriving DecidableEq, Repr

/-- Outcome of one place_order call: the returned result dict, the
TradeState row for the instrument after the call, and whether the
broker order-submission capability smart.placeOrder was invoked. -/
structure ExecOutcome where
  result : OrderResult
  db : Option TradeState
  placeOrderCalled : Bool
deriving DecidableEq, Repr

/-- Loop of OrderService._sync_position over the broker position data:
broker_position starts at NONE and is set to LONG by any entry for the
trading symbol with positive net quantity. -/
def brokerPositionFor (tsym : String) (entries : List PositionEntry) : String :=
  entries.foldl
    (fun acc p => if p.tradingsymbol = tsym ∧ 0 < p.netqty then "LONG" else acc)
    "NONE"

/-- OrderService._sync_position: fetch broker positions; on exception or
a falsy status the ledger is left as it was (exception caught and
logged); otherwise get_or_create the row and overwrite position with
the broker-derived value when they differ. -/
def syncPosition (resp : Except String PositionsResp) (tsym : String)
    (now : Int) (db : Option TradeState) : Option TradeState :=
  match resp with
  | .error _ => db
  | .ok r =>
    if r.status = false then db
    else
      let bp := brokerPositionFor tsym r.data
      let ts := db.getD (mkTradeState now)
      if ts.position ≠ bp then some { ts with position := bp } else some ts

/-- Early-return result for a missing order id. -/
def noOrderIdResult : OrderResult :=
  { status := "FAILED", errorMsg := some "No order ID returned" }

/-- Order id extraction from the raw placeOrder response in
OrderService.place_order: a bare string is the id; a dict with falsy
status is an early FAILED return carrying the message; otherwise the
data field is the id; a falsy id (None or empty) is an early FAILED
with No order ID returned. Except.error here is the early return. -/
def extractOrderId (resp : PlaceResp) : Except OrderResult String :=
  match resp with
  | .asStr s => if s = "" then .error noOrderIdResult else .ok s
  | .asDict st msg d =>
    if st = false then .error { status := "FAILED", errorMsg := msg }
    else
      match d with
      | some s => if s = "" then .error noOrderIdResult else .ok s
      | none => .error noOrderIdResult
  | .other => .error noOrderIdResult

/-- Order book scan in OrderService.place_order: final_status starts at
UNKNOWN; when the order book response has truthy status, the first
entry whose orderid matches yields its orderstatus. -/
def finalStatusFrom (ob : OrderBookResp) (oid : String) : String :=
  if ob.status = false then "UNKNOWN"
  else
    match ob.data.find? (fun o => o.orderid == oid) with
    | some o => o.orderstatus
    | none => "UNKNOWN"

/-- Try-block of OrderService.place_order (live execution): submit the
order, extract the order id, poll the order book, and update the
TradeState row only when the polled status is COMPLETE (BUY writes
LONG, SELL writes NONE, last_signal and updated_at refreshed). Any
exception in the block returns status ERROR with str(e). -/
def liveExecute (broker : Broker) (signal : String) (now : Int)
    (ts : TradeState) : ExecOutcome :=
  match broker.placeOrderResp with
  | .error e => ⟨{ status := "ERROR", errorMsg := some e }, some ts, true⟩
  | .ok resp =>
    match extractOrderId resp with
    | .error r => ⟨r, some ts, true⟩
    | .ok oid =>
      match broker.orderBookResp with
      | .error e => ⟨{ status := "ERROR", errorMsg := some e }, some ts, true⟩
      | .ok ob =>
        let fs := finalStatusFrom ob oid
        let db3 :=
          if fs = "COMPLETE" then
            some { ts with
              position := if signal = "BUY" then "LONG" else "NONE",
              last_signal := signal,
              updated_at := now }
          else some ts
        ⟨{ status := fs, order_id := some oid }, db3, true⟩

/-- Execution environment of one place_order call: the dry_run flag of
the OrderService, the LIVE_TRADING_ENABLED setting, the broker
responses, and the current time. -/
structure ExecEnv where
  dry_run : Bool
  live_enabled : Bool
  broker : Broker
  now : Int
deriving DecidableEq, Repr

/-- Ledger state right after the reconciliation phase of place_order:
_sync_position runs, then get_or_create re-reads (creating the row when
absent). -/
def reconciledState (env : ExecEnv) (tsym : String)
    (db : Option TradeState) : TradeState :=
  (syncPosition env.broker.positionResp tsym env.now db).getD
    (mkTradeState env.now)

/-- OrderService.place_order: validate the signal and quantity, sync the
ledger with the broker, apply the duplicate-direction safety checks,
stop with DRY_RUN in simulation mode, stop with DISABLED unless live
trading is enabled, else run the live try-block. The orderparams dict
built before the dry-run check is pure data assembly with no side
effects and is elided. -/
def place_order (env : ExecEnv) (tsym : String) (signal : String)
    (quantity : Int) (db : Option TradeState) : ExecOutcome :=
  if ¬(signal = "BUY" ∨ signal = "SELL") then
    ⟨{ status := "SKIPPED", reason := some "No valid signal" }, db, false⟩
  else if quantity ≤ 0 then
    ⟨{ status := "BLOCKED", reason := some "Invalid quantity" }, db, false⟩
  else
    let ts := reconciledState env tsym db
    if signal = "BUY" ∧ ts.position = "LONG" then
      ⟨{ status := "BLOCKED", reason := some "Already LONG" }, some ts, false⟩
    else if signal = "SELL" ∧ ts.position = "NONE" then
      ⟨{ status := "BLOCKED", reason := some "No position to close" }, some ts, false⟩
    else if env.dry_run then
      ⟨{ status := "DRY_RUN" }, some ts, false⟩
    else if env.live_enabled = false then
      ⟨{ status := "DISABLED", reason := some "Live trading disabled in settings" },
        some ts, false⟩
    else
      liveExecute env.broker signal env.now ts

/-- Ledger-state transformer of one execution cycle for an instrument. -/
def stepDb (env : ExecEnv) (tsym : String) (signal : String)
    (quantity : Int) (db : Option TradeState) : Option TradeState :=
  (place_order env tsym signal quantity db).db

/-- Boolean Position Ledger invariant: the row for the instrument, when
present, records position NONE or LONG. -/
def positionOkB (db : Option TradeState) : Bool :=
  match db with
  | none => true
  | some ts => ts.position == "NONE" || ts.position == "LONG"

/-- Smoothing factor of a pandas ewm with the given span: 2 / (span + 1). -/
def emaAlpha (span : ℕ) : ℚ :=
  2 / (span + 1)

/-- Recursive tail of an unadjusted exponential moving average: each
output is alpha * x + (1 - alpha) * previous output. -/
def emaFrom (a : ℚ) (prev : ℚ) : List ℚ → List ℚ
  | [] => []
  | x :: xs =>
    let y := a * x + (1 - a) * prev
    y :: emaFrom a y xs

/-- Series produced by close.ewm(span, adjust=False).mean() in
run_ema_pipeline: seeded from the first close, then the recursive
unadjusted average. -/
def emaSeries (span : ℕ) (closes : List ℚ) : List ℚ :=
  match closes with
  | [] => []
  | x :: xs => x :: emaFrom (emaAlpha span) x xs

/-- Diff column of run_ema_pipeline: ema_short minus ema_long,
pointwise. -/
def diffSeries (shortSpan longSpan : ℕ) (closes : List ℚ) : List ℚ :=
  List.zipWith (fun a b => a - b) (emaSeries shortSpan closes)
    (emaSeries longSpan closes)

/-- Value of the diff column at index i (indices are in range wherever
this is used). -/
def dAt (diffs : List ℚ) (i : ℕ) : ℚ :=
  (diffs[i]?).getD 0

/-- Sign of a rational number: 1, -1 or 0. -/
def ratSign (q : ℚ) : Int :=
  if 0 < q then 1 else if q < 0 then -1 else 0

/-- Crossover column of run_ema_pipeline at row i:
(diff > 0 and shifted diff <= 0) or (diff < 0 and shifted diff >= 0);
at row 0 the shifted value is NaN, so both comparisons are false. -/
def crossoverFlag (diffs : List ℚ) (i : ℕ) : Bool :=
  if i = 0 then false
  else if i < diffs.length then
    (decide (0 < dAt diffs i) && decide (dAt diffs (i - 1) ≤ 0)) ||
    (decide (dAt diffs i < 0) && decide (0 ≤ dAt diffs (i - 1)))
  else false

/-- Index of the last true value of a predicate below n, mirroring the
selection of crossover_rows.index[-1] over the dataframe rows. -/
def lastTrue (p : ℕ → Bool) (n : ℕ) : Option ℕ :=
  (List.range n).foldl (fun acc i => if p i then some i else acc) none

/-- Last crossover row over the whole series (none when no row has the
crossover flag set). -/
def lastCrossoverIndex (diffs : List ℚ) : Option ℕ :=
  lastTrue (crossoverFlag diffs) diffs.length

/-- Direction of the reported crossover event, from the sign of the diff
at the last crossover row: UP corresponds to the BUY branch of the
source (diff > 0), DOWN to the SELL branch (diff < 0). -/
def crossoverDirection (diffs : List ℚ) : Option String :=
  (lastCrossoverIndex diffs).map
    (fun i =>
      if 0 < dAt diffs i then "UP"
      else if dAt diffs i < 0 then "DOWN"
      else "NONE")

/-- Strict fresh-signal logic of run_ema_pipeline: a BUY or SELL only
when the last crossover row is the final row of the series (positional
translation of comparing its timestamp index with df.index[-1], valid
because timestamps are unique), with direction decided by the sign of
the diff there. -/
def freshSignal (diffs : List ℚ) : String :=
  match lastCrossoverIndex diffs with
  | none => "NONE"
  | some i =>
    if i = diffs.length - 1 then
      if 0 < dAt diffs i then "BUY"
      else if dAt diffs i < 0 then "SELL"
      else "NONE"
    else "NONE"

/-- Optional FORCE_SIGNAL override applied after the fresh-signal logic
(settings.FORCE_SIGNAL, represented as an explicit argument): a forced
BUY or SELL replaces the computed signal. -/
def applyForce (force : Option String) (s : String) : String :=
  match force with
  | some f => if f = "BUY" ∨ f = "SELL" then f else s
  | none => s

/-- run_ema_pipeline from trading/engine/ema_pipeline.py reduced to its
signal output: empty data and a series shorter than 2 rows are error
results; otherwise the crossover scan runs and the (possibly forced)
signal is returned. No validation of the span parameters is performed
anywhere in the pipeline. Spans are assumed at least 1 so that the
pandas ewm call itself does not raise. -/
def run_ema_pipeline (shortSpan longSpan : ℕ) (force : Option String)
    (closes : List ℚ) : Except String String :=
  if closes.isEmpty then .error "No market data received"
  else if closes.length < 2 then
    .error "Not enough candles for crossover detection"
  else .ok (applyForce force (freshSignal (diffSeries shortSpan longSpan closes)))

/-- Freshness gate of TradingEngine.run step 5: times are integer
microsecond counts; the validity window is already converted to
microseconds; the branch taken is candle_dt < now - validity, which
yields the STALE_SIGNAL result instead of an order attempt. -/
def signalStale (candle_dt now validity : Int) : Bool :=
  candle_dt < now - validity

/-- Parameter names accepted by TradingEngine.run in
trading/engine/trading_engine.py (besides self). -/
def tradingEngineRunParams : List String :=
  ["stock", "quantity"]

/-- Keyword-argument names passed to trading_engine.run by
BatchTradingEngine.run in trading/engine/batch_engine.py. -/
def batchRunKwargs : List String :=
  ["service", "symbol_token", "exchange", "interval", "candle_count"]

/-- Python keyword-call compatibility: a call with a keyword argument
that is not a parameter name of the callee (which has no **kwargs)
raises TypeError. -/
def kwargsAccepted (params kwargs : List String) : Bool :=
  kwargs.all (fun k => params.contains k)

/-- Stock configuration row fields used by the batch engine loop. -/
structure StockCfg where
  symbol : String
  exchange : String
  timeframe : String
deriving DecidableEq, Repr

/-- One call of trading_engine.run as performed by the batch loop: the
keyword arguments are checked against the callee signature first (a
mismatch raises TypeError before any engine logic runs); only when
accepted does the per-instrument engine body run. -/
def callTradingEngineRun (engine : StockCfg → String) (stock : StockCfg) :
    Except String String :=
  if kwargsAccepted tradingEngineRunParams batchRunKwargs then
    .ok (engine stock)
  else
    .error "TypeError: run() got an unexpected keyword argument"

/-- BatchTradingEngine.run loop over the active stocks (after a
successful login): each iteration appends one (symbol, result) pair;
the loop body has no try/except, so an exception raised by any
iteration propagates and aborts the whole run. -/
def batchEngineRun (engine : StockCfg → String) (stocks : List StockCfg) :
    Except String (List (String × String)) :=
  stocks.foldlM
    (fun acc stock =>
      (callTradingEngineRun engine stock).map
        (fun r => acc ++ [(stock.symbol, r)]))
    []

/-- Broker fixture: reports an open long position of five units for
RELIANCE-EQ, accepts the order with id ord1, and shows it COMPLETE in
the order book. -/
def brokerLongComplete : Broker :=
  { positionResp := .ok ({ status := true, data := [{ tradingsymbol := "RELIANCE-EQ", netqty := 5 }] }),
    placeOrderResp := .ok (.asStr "ord1"),
    orderBookResp := .ok ({ status := true, data := [{ orderid := "ord1", orderstatus := "COMPLETE" }] }) }

/-- Broker fixture: flat position, order accepted with id ord1, but the
order book scan never finds ord1. -/
def brokerFlatMissing : Broker :=
  { positionResp := .ok ({ status := true, data := [] }),
    placeOrderResp := .ok (.asStr "ord1"),
    orderBookResp := .ok ({ status := true, data := [{ orderid := "other", orderstatus := "COMPLETE" }] }) }

/-- Broker fixture: flat position and a submission call that raises a
network exception. -/
def brokerSubmitError : Broker :=
  { positionResp := .ok ({ status := true, data := [] }),
    placeOrderResp := .error "Connection timeout",
    orderBookResp := .ok ({ status := true, data := [] }) }

/-- Ledger fixture: an existing row with position NONE. -/
def dbNone : Option TradeState :=
  some { position := "NONE", last_signal := "NONE", updated_at := 0 }

/-- Environment fixture: dry-run call against the long-reporting broker. -/
def envDryLong : ExecEnv :=
  { dry_run := true, live_enabled := false, broker := brokerLongComplete,
    now := 100 }

/-- Environment fixture: live call against the long-reporting broker. -/
def envLiveComplete : ExecEnv :=
  { dry_run := false, live_enabled := true, broker := brokerLongComplete,
    now := 100 }

/-- Environment fixture: live call against the flat broker whose order
book never shows the submitted id. -/
def envLiveMissing : ExecEnv :=
  { dry_run := false, live_enabled := true, broker := brokerFlatMissing,
    now := 100 }

/-- Environment fixture: live call whose submission raises. -/
def envLiveSubmitError : ExecEnv :=
  { dry_run := false, live_enabled := true, broker := brokerSubmitError,
    now := 100 }

/-- The emaFrom tail has the same length as its input list. -/
theorem emaFrom_length (a : ℚ) (prev : ℚ) (xs : List ℚ) :
    (emaFrom a prev xs).length = xs.length := by
  induction xs generalizing prev with
  | nil => rfl
  | cons x xs ih => simp [emaFrom, ih]

/-- An EMA series is aligned index-for-index with the close series. -/
theorem emaSeries_length (span : ℕ) (closes : List ℚ) :
    (emaSeries span closes).length = closes.length := by
  cases closes with
  | nil => rfl
  | cons x xs => simp [emaSeries, emaFrom_length]

/-- The diff column is aligned index-for-index with the close series. -/
theorem diffSeries_length (shortSpan longSpan : ℕ) (closes : List ℚ) :
    (diffSeries shortSpan longSpan closes).length = closes.length := by
  simp [diffSeries, emaSeries_length]

/-- Unfolding lastTrue one step at the top index. -/
theorem lastTrue_succ (p : ℕ → Bool) (n : ℕ) :
    lastTrue p (n + 1) = if p n then some n else lastTrue p n := by
  by_cases hp : p n <;>
    simp [lastTrue, List.range_succ, List.foldl_append, hp]

/-- A defined lastTrue value is a true index, in range, and the last
true index. -/
theorem lastTrue_some (p : ℕ → Bool) :
    ∀ n i, lastTrue p n = some i →
      p i = true ∧ i < n ∧ ∀ j, i < j → j < n → p j = false := by
  intro n
  induction n with
  | zero => intro i h; simp [lastTrue] at h
  | succ n ih =>
    intro i h
    rw [lastTrue_succ] at h
    by_cases hp : p n = true
    · rw [if_pos hp] at h
      obtain rfl : n = i := Option.some.inj h
      exact ⟨hp, Nat.lt_succ_self n, fun j hj hjn => by omega⟩
    · rw [if_neg hp] at h
      obtain ⟨h1, h2, h3⟩ := ih i h
      refine ⟨h1, Nat.lt_succ_of_lt h2, ?_⟩
      intro j hij hj
      rcases Nat.lt_succ_iff_lt_or_eq.mp hj with hlt | heq
      · exact h3 j hij hlt
      · subst heq
        exact Bool.eq_false_iff.mpr hp

/-- A none lastTrue value means no index below n is true. -/
theorem lastTrue_none (p : ℕ → Bool) :
    ∀ n, lastTrue p n = none → ∀ j, j < n → p j = false := by
  intro n
  induction n with
  | zero => intro _ j hj; omega
  | succ n ih =>
    intro h j hj
    rw [lastTrue_succ] at h
    by_cases hp : p n = true
    · rw [if_pos hp] at h; cases h
    · rw [if_neg hp] at h
      rcases Nat.lt_succ_iff_lt_or_eq.mp hj with hlt | heq
      · exact ih h j hlt
      · subst heq
        exact Bool.eq_false_iff.mpr hp

/-- Sign of a positive rational. -/
theorem ratSign_of_pos {d : ℚ} (h : 0 < d) : ratSign d = 1 := by
  simp [ratSign, h]

/-- Sign of a negative rational. -/
theorem ratSign_of_neg {d : ℚ} (h : d < 0) : ratSign d = -1 := by
  simp [ratSign, h, h.not_lt]

/-- Sign of zero. -/
theorem ratSign_of_zero : ratSign (0 : ℚ) = 0 := by
  simp [ratSign]

/-- The boolean crossover condition on a pair of consecutive diff values
is exactly a sign change with a nonzero current diff. -/
theorem crossCond_iff (d dp : ℚ) :
    ((decide (0 < d) && decide (dp ≤ 0)) ||
      (decide (d < 0) && decide (0 ≤ dp))) = true ↔
    (ratSign d ≠ ratSign dp ∧ d ≠ 0) := by
  simp only [Bool.or_eq_true, Bool.and_eq_true, decide_eq_true_eq]
  rcases lt_trichotomy d 0 with hd | hd | hd
  · rw [ratSign_of_neg hd]
    rcases lt_trichotomy dp 0 with hp | hp | hp
    · rw [ratSign_of_neg hp]
      simp [hd.not_lt, hp.not_le]
    · subst hp
      rw [ratSign_of_zero]
      simp [hd, hd.ne, hd.not_lt]
    · rw [ratSign_of_pos hp]
      simp [hd, hd.ne, hp.le, hd.not_lt]
  · subst hd
    simp
  · rw [ratSign_of_pos hd]
    rcases lt_trichotomy dp 0 with hp | hp | hp
    · rw [ratSign_of_neg hp]
      simp [hd, hp.le, hd.ne', hd.not_lt]
    · subst hp
      rw [ratSign_of_zero]
      simp [hd, hd.ne', hd.not_lt]
    · rw [ratSign_of_pos hp]
      simp [hd.not_lt, hp.not_le]

/-- A set crossover flag implies a positive in-range index with nonzero
diff. -/
theorem crossoverFlag_pos (diffs : List ℚ) (i : ℕ)
    (h : crossoverFlag diffs i = true) :
    0 < i ∧ i < diffs.length ∧ dAt diffs i ≠ 0 := by
  unfold crossoverFlag at h
  by_cases h0 : i = 0
  · simp [h0] at h
  · rw [if_neg h0] at h
    by_cases hl : i < diffs.length
    · rw [if_pos hl] at h
      refine ⟨Nat.pos_of_ne_zero h0, hl, ?_⟩
      simp only [Bool.or_eq_true, Bool.and_eq_true, decide_eq_true_eq] at h
      rcases h with ⟨h1, _⟩ | ⟨h1, _⟩
      · exact ne_of_gt h1
      · exact ne_of_lt h1
    · rw [if_neg hl] at h; cases h

/-- The crossover flag at a positive in-range index is the sign-change
condition of the spec. -/
theorem crossoverFlag_iff (diffs : List ℚ) (i : ℕ) (h0 : 0 < i)
    (hl : i < diffs.length) :
    crossoverFlag diffs i = true ↔
      (ratSign (dAt diffs i) ≠ ratSign (dAt diffs (i - 1)) ∧
        dAt diffs i ≠ 0) := by
  unfold crossoverFlag
  rw [if_neg (Nat.pos_iff_ne_zero.mp h0), if_pos hl]
  exact crossCond_iff (dAt diffs i) (dAt diffs (i - 1))

/-- C5: for a candle series of length at least 2 the Crossover Detector
flags an index i > 0 exactly when the sign of diff changes from i-1 to i
and diff at i is nonzero (a zero diff is never itself a crossover); it
reports the last flagged index over the whole series, and the reported
direction is UP when the diff there is positive and DOWN when it is
negative. -/
theorem C5_crossover_detector (shortSpan longSpan : ℕ)
    (closes diffs : List ℚ)
    (hdiffs : diffs = diffSeries shortSpan longSpan closes)
    (hlen : 2 ≤ closes.length) :
    (∀ i, 0 < i → i < diffs.length →
      (crossoverFlag diffs i = true ↔
        (ratSign (dAt diffs i) ≠ ratSign (dAt diffs (i - 1)) ∧
          dAt diffs i ≠ 0)))
    ∧ (∀ i, lastCrossoverIndex diffs = some i →
        crossoverFlag diffs i = true ∧
        (∀ j, crossoverFlag diffs j = true → j ≤ i) ∧
        crossoverDirection diffs =
          some (if 0 < dAt diffs i then "UP" else "DOWN"))
    ∧ (lastCrossoverIndex diffs = none →
        ∀ j, crossoverFlag diffs j = false) := by
  refine ⟨fun i h0 hl => crossoverFlag_iff diffs i h0 hl, ?_, ?_⟩
  · intro i hi
    have hi' : lastTrue (crossoverFlag diffs) diffs.length = some i := hi
    obtain ⟨h1, h2, h3⟩ :=
      lastTrue_some (crossoverFlag diffs) diffs.length i hi'
    refine ⟨h1, ?_, ?_⟩
    · intro j hj
      by_contra hgt
      push_neg at hgt
      have hjlen := (crossoverFlag_pos diffs j hj).2.1
      simp [h3 j hgt hjlen] at hj
    · have hne := (crossoverFlag_pos diffs i h1).2.2
      simp only [crossoverDirection, hi, Option.map_some']
      by_cases hpos : 0 < dAt diffs i
      · simp [hpos]
      · have hneg : dAt diffs i < 0 := lt_of_le_of_ne (not_lt.mp hpos) hne
        simp [hpos, hneg]
  · intro hnone j
    have hnone' : lastTrue (crossoverFlag diffs) diffs.length = none := hnone
    by_cases hj : j < diffs.length
    · exact lastTrue_none (crossoverFlag diffs) diffs.length hnone' j hj
    · unfold crossoverFlag
      rcases Nat.eq_zero_or_pos j with h0 | h0
      · simp [h0]
      · rw [if_neg (Nat.pos_iff_ne_zero.mp h0), if_neg hj]

/-- Witness for C5 at the two-candle series with closes 10, 20 and
windows 2 and 4: a single UP crossover at index 1. -/
theorem C5_crossover_detector_witness :
    2 ≤ ([(10 : ℚ), 20]).length ∧
    lastCrossoverIndex (diffSeries 2 4 [10, 20]) = some 1 ∧
    crossoverFlag (diffSeries 2 4 [10, 20]) 1 = true ∧
    crossoverDirection (diffSeries 2 4 [10, 20]) = some "UP" := by
  have hD : diffSeries 2 4 [10, 20] = [0, 8/3] := by
    norm_num [diffSeries, emaSeries, emaFrom, emaAlpha]
  have hf : crossoverFlag [(0 : ℚ), 8/3] 1 = true := by
    norm_num [crossoverFlag, dAt]
  have hl : lastCrossoverIndex (diffSeries 2 4 [10, 20]) = some 1 := by
    rw [hD]
    show lastTrue (crossoverFlag [(0 : ℚ), 8/3]) (1 + 1) = some 1
    rw [lastTrue_succ, hf]
    simp
  refine ⟨by decide, hl, by rw [hD]; exact hf, ?_⟩
  have h := ((C5_crossover_detector 2 4 [10, 20]
    (diffSeries 2 4 [10, 20]) rfl (by decide)).2.1 1 hl).2.2
  rw [h, hD]
  norm_num [dAt]

/-- C9: run_ema_pipeline (with no FORCE_SIGNAL override) emits BUY or
SELL only when the last crossover row is the final candle of the series;
whenever the last crossover sits at any earlier row, the emitted signal
is NONE. -/
theorem C9_signal_only_on_last_candle (shortSpan longSpan : ℕ)
    (closes : List ℚ) (sig : String) (hlen : 2 ≤ closes.length)
    (hrun : run_ema_pipeline shortSpan longSpan none closes = .ok sig) :
    ((sig = "BUY" ∨ sig = "SELL") →
      lastCrossoverIndex (diffSeries shortSpan longSpan closes) =
        some (closes.length - 1))
    ∧ (∀ i, lastCrossoverIndex (diffSeries shortSpan longSpan closes) = some i →
        i ≠ closes.length - 1 → sig = "NONE") := by
  have hne : closes.isEmpty = false := by
    cases closes with
    | nil => simp at hlen
    | cons a l => rfl
  have hnlt : ¬ closes.length < 2 := not_lt.mpr hlen
  have hlen' : (diffSeries shortSpan longSpan closes).length = closes.length :=
    diffSeries_length shortSpan longSpan closes
  simp only [run_ema_pipeline, hne, Bool.false_eq_true, if_false,
    if_neg hnlt, applyForce, Except.ok.injEq] at hrun
  cases hidx : lastCrossoverIndex (diffSeries shortSpan longSpan closes) with
  | none =>
    simp only [freshSignal, hidx] at hrun
    constructor
    · intro hbs
      rcases hbs with hb | hb <;> exact absurd (hrun.trans hb) (by decide)
    · intro i hi
      exact Option.noConfusion hi
  | some i =>
    simp only [freshSignal, hidx] at hrun
    by_cases heq : i = (diffSeries shortSpan longSpan closes).length - 1
    · rw [if_pos heq] at hrun
      constructor
      · intro _
        rw [heq, hlen']
      · intro i' hi' hne'
        have hii : i' = i := (Option.some.inj hi').symm
        subst hii
        rw [heq, hlen'] at hne'
        exact absurd rfl hne'
    · rw [if_neg heq] at hrun
      constructor
      · intro hbs
        rcases hbs with hb | hb <;> exact absurd (hrun.trans hb) (by decide)
      · intro i' hi' hne'
        exact hrun.symm

/-- Witness for C9 at closes 10, 20 with windows 2 and 4: the pipeline
emits BUY and the last crossover is indeed on the final candle. -/
theorem C9_signal_only_on_last_candle_witness :
    2 ≤ ([(10 : ℚ), 20]).length ∧
    run_ema_pipeline 2 4 none [10, 20] = .ok "BUY" ∧
    lastCrossoverIndex (diffSeries 2 4 [10, 20]) =
      some (([(10 : ℚ), 20]).length - 1) := by
  have hD : diffSeries 2 4 [10, 20] = [0, 8/3] := by
    norm_num [diffSeries, emaSeries, emaFrom, emaAlpha]
  have hf : crossoverFlag [(0 : ℚ), 8/3] 1 = true := by
    norm_num [crossoverFlag, dAt]
  have hl : lastCrossoverIndex [(0 : ℚ), 8/3] = some 1 := by
    show lastTrue (crossoverFlag [(0 : ℚ), 8/3]) (1 + 1) = some 1
    rw [lastTrue_succ, hf]
    simp
  have hsig : freshSignal (diffSeries 2 4 [10, 20]) = "BUY" := by
    rw [hD, freshSignal, hl]
    norm_num [dAt]
  have hrun : run_ema_pipeline 2 4 none [10, 20] = .ok "BUY" := by
    rw [run_ema_pipeline]
    norm_num [List.isEmpty, applyForce, hsig]
  exact ⟨by decide, hrun,
    (C9_signal_only_on_last_candle 2 4 [10, 20] "BUY" (by decide) hrun).1
      (Or.inl rfl)⟩

/-- C8 counterexample: the window pair short=3, long=2 violates
shortWindow < longWindow, yet run_ema_pipeline performs no configuration
validation: it emits a SELL signal instead of failing with
ConfigurationError. -/
theorem C8_counterexample :
    ¬ (3 < 2) ∧ run_ema_pipeline 3 2 none [10, 20] = .ok "SELL" := by
  have hD : diffSeries 3 2 [10, 20] = [0, -5/3] := by
    norm_num [diffSeries, emaSeries, emaFrom, emaAlpha]
  have hf : crossoverFlag [(0 : ℚ), -5/3] 1 = true := by
    norm_num [crossoverFlag, dAt]
  have hl : lastCrossoverIndex [(0 : ℚ), -5/3] = some 1 := by
    show lastTrue (crossoverFlag [(0 : ℚ), -5/3]) (1 + 1) = some 1
    rw [lastTrue_succ, hf]
    simp
  have hsig : freshSignal (diffSeries 3 2 [10, 20]) = "SELL" := by
    rw [hD, freshSignal, hl]
    norm_num [dAt]
  refine ⟨by decide, ?_⟩
  rw [run_ema_pipeline]
  norm_num [List.isEmpty, applyForce, hsig]

/-- C8 amended: run_ema_pipeline validates no window parameters: for any
spans at least 1 (so that the pandas ewm call itself accepts them) with
shortWindow >= longWindow, and at least 2 candles, the pipeline still
succeeds with a signal; no ConfigurationError exists in the pipeline. -/
theorem C8_amended_no_window_validation (shortSpan longSpan : ℕ)
    (closes : List ℚ) (h1 : 1 ≤ shortSpan) (h2 : 1 ≤ longSpan)
    (hbad : ¬ shortSpan < longSpan) (hlen : 2 ≤ closes.length) :
    ∃ s, run_ema_pipeline shortSpan longSpan none closes = .ok s := by
  have hne : closes.isEmpty = false := by
    cases closes with
    | nil => simp at hlen
    | cons a l => rfl
  refine ⟨applyForce none (freshSignal (diffSeries shortSpan longSpan closes)), ?_⟩
  simp [run_ema_pipeline, hne, not_lt.mpr hlen]

/-- Witness for the amended C8 at spans 3 and 2 on closes 10, 20. -/
theorem C8_amended_no_window_validation_witness :
    1 ≤ 3 ∧ 1 ≤ 2 ∧ ¬ (3 < 2) ∧ 2 ≤ ([(10 : ℚ), 20]).length ∧
    ∃ s, run_ema_pipeline 3 2 none [10, 20] = .ok s :=
  ⟨by decide, by decide, by decide, by decide,
    C8_amended_no_window_validation 3 2 [10, 20] (by decide) (by decide)
      (by decide) (by decide)⟩

/-- C6 counterexample: with now = 10 and validity window 5 (integer time
units), a crossover timestamped 11 lies outside the claimed closed
interval because it exceeds now, yet the freshness gate does not flag it
stale and the cycle proceeds to an order attempt. -/
theorem C6_counterexample :
    signalStale 11 10 5 = false ∧ ¬ ((11 : Int) ≤ 10) := by
  constructor <;> decide

/-- C6 amended: the freshness gate checks only the inclusive lower
bound: the signal is actionable iff now - validity <= t (no upper-bound
check exists, so future timestamps also pass); the boundary timestamp
t = now - validity is actionable, and any strictly older timestamp
yields the STALE_SIGNAL outcome. -/
theorem C6_amended_inclusive_lower_bound (t now validity : Int) :
    (signalStale t now validity = false ↔ now - validity ≤ t)
    ∧ signalStale (now - validity) now validity = false
    ∧ (t < now - validity → signalStale t now validity = true) := by
  refine ⟨?_, ?_, ?_⟩
  · simp [signalStale, not_lt]
  · simp [signalStale]
  · intro h
    simp [signalStale, h]

/-- Witness for the amended C6 at t = 4, now = 10, validity = 5. -/
theorem C6_amended_inclusive_lower_bound_witness :
    (signalStale 4 10 5 = false ↔ (10 : Int) - 5 ≤ 4)
    ∧ signalStale (10 - 5) 10 5 = false
    ∧ ((4 : Int) < 10 - 5 → signalStale 4 10 5 = true) :=
  C6_amended_inclusive_lower_bound 4 10 5

/-- Reduction of place_order to its live try-block when a valid signal
and quantity are given, both safety checks pass, simulation mode is off
and live trading is enabled. -/
theorem place_order_live (env : ExecEnv) (tsym signal : String) (q : Int)
    (db : Option TradeState)
    (hsig : signal = "BUY" ∨ signal = "SELL") (hq : 0 < q)
    (hdry : env.dry_run = false) (hlive : env.live_enabled = true)
    (hs1 : signal = "BUY" → (reconciledState env tsym db).position ≠ "LONG")
    (hs2 : signal = "SELL" → (reconciledState env tsym db).position ≠ "NONE") :
    place_order env tsym signal q db =
      liveExecute env.broker signal env.now (reconciledState env tsym db) := by
  rcases hsig with h | h
  · subst h
    simp [place_order, hdry, hlive, hs1 rfl, hq.not_le]
  · subst h
    simp [place_order, hdry, hlive, hs2 rfl, hq.not_le]

/-- An order id absent from every order book entry leaves the polled
status at UNKNOWN. -/
theorem finalStatus_not_found (ob : OrderBookResp) (oid : String)
    (h : ∀ o ∈ ob.data, o.orderid ≠ oid) :
    finalStatusFrom ob oid = "UNKNOWN" := by
  unfold finalStatusFrom
  by_cases hs : ob.status = false
  · rw [if_pos hs]
  · rw [if_neg hs]
    have hfind : ob.data.find? (fun o => o.orderid == oid) = none := by
      rw [List.find?_eq_none]
      intro x hx
      simp [h x hx]
    rw [hfind]

/-- A BUY against a post-reconciliation LONG position is blocked with no
submission and no further ledger write. -/
theorem place_order_blocked_buy (env : ExecEnv) (tsym : String) (q : Int)
    (db : Option TradeState) (hq : 0 < q)
    (hpos : (reconciledState env tsym db).position = "LONG") :
    place_order env tsym "BUY" q db =
      ⟨{ status := "BLOCKED", reason := some "Already LONG" },
        some (reconciledState env tsym db), false⟩ := by
  simp [place_order, hq.not_le, hpos]

/-- A SELL against a post-reconciliation NONE position is blocked with
no submission and no further ledger write. -/
theorem place_order_blocked_sell (env : ExecEnv) (tsym : String) (q : Int)
    (db : Option TradeState) (hq : 0 < q)
    (hpos : (reconciledState env tsym db).position = "NONE") :
    place_order env tsym "SELL" q db =
      ⟨{ status := "BLOCKED", reason := some "No position to close" },
        some (reconciledState env tsym db), false⟩ := by
  simp [place_order, hq.not_le, hpos]

/-- Reconciling an already reconciled ledger state is a fixed point
(same broker responses). -/
theorem reconciledState_idem (env : ExecEnv) (tsym : String)
    (db : Option TradeState) :
    reconciledState env tsym (some (reconciledState env tsym db)) =
      reconciledState env tsym db := by
  unfold reconciledState syncPosition
  cases hr : env.broker.positionResp with
  | error e => simp
  | ok r =>
    by_cases hs : r.status = false
    · simp [hs]
    · simp only [hs, if_false]
      by_cases hne : (db.getD (mkTradeState env.now)).position ≠
          brokerPositionFor tsym r.data
      · simp [hne]
      · simp [hne]

/-- C1: in live mode, once an order is submitted with a valid id and the
order book is polled, the TradeState row is mutated iff the polled
status is COMPLETE (BUY writes LONG, SELL writes NONE); when the poll
never finds the submitted id the status is UNKNOWN, not FAILED, and the
row is untouched. -/
theorem C1_complete_only_mutation (env : ExecEnv) (tsym signal : String)
    (q : Int) (db : Option TradeState) (oid : String) (ob : OrderBookResp)
    (hsig : signal = "BUY" ∨ signal = "SELL") (hq : 0 < q)
    (hdry : env.dry_run = false) (hlive : env.live_enabled = true)
    (hs1 : signal = "BUY" → (reconciledState env tsym db).position ≠ "LONG")
    (hs2 : signal = "SELL" → (reconciledState env tsym db).position ≠ "NONE")
    (hpl : env.broker.placeOrderResp = .ok (.asStr oid)) (hoid : oid ≠ "")
    (hob : env.broker.orderBookResp = .ok ob) :
    ((place_order env tsym signal q db).db ≠
        some (reconciledState env tsym db) ↔
      (place_order env tsym signal q db).result.status = "COMPLETE") ∧
    ((place_order env tsym signal q db).result.status = "COMPLETE" →
      (place_order env tsym signal q db).db =
        some { reconciledState env tsym db with
          position := if signal = "BUY" then "LONG" else "NONE",
          last_signal := signal, updated_at := env.now }) ∧
    ((∀ o ∈ ob.data, o.orderid ≠ oid) →
      (place_order env tsym signal q db).result.status = "UNKNOWN" ∧
      (place_order env tsym signal q db).result.status ≠ "FAILED" ∧
      (place_order env tsym signal q db).db =
        some (reconciledState env tsym db)) := by
  rw [place_order_live env tsym signal q db hsig hq hdry hlive hs1 hs2]
  have hnes : (reconciledState env tsym db).position ≠
      (if signal = "BUY" then "LONG" else "NONE") := by
    rcases hsig with h | h <;> subst h
    · simpa using hs1 rfl
    · simpa using hs2 rfl
  simp only [liveExecute, hpl, extractOrderId, if_neg hoid, hob]
  by_cases hc : finalStatusFrom ob oid = "COMPLETE"
  · simp only [if_pos hc]
    refine ⟨?_, fun _ => by trivial, ?_⟩
    · apply iff_of_true _ hc
      intro heq
      have h1 := Option.some.inj heq
      have h2 := congrArg TradeState.position h1
      simp only [] at h2
      exact hnes h2.symm
    · intro hnf
      rw [finalStatus_not_found ob oid hnf] at hc
      exact absurd hc (by decide)
  · simp only [if_neg hc]
    refine ⟨iff_of_false (fun h => h rfl) hc, fun h => absurd h hc,
      fun hnf => ?_⟩
    exact ⟨finalStatus_not_found ob oid hnf,
      by rw [finalStatus_not_found ob oid hnf]; decide, by trivial⟩

/-- Witness for C1: a live SELL against the long-reporting broker whose
order completes mutates the row to NONE, and a live BUY whose submitted
id never appears in the order book yields UNKNOWN with the row kept at
its reconciled value. -/
theorem C1_complete_only_mutation_witness :
    0 < (1 : Int) ∧
    (place_order envLiveComplete "RELIANCE-EQ" "SELL" 1 dbNone).result.status
      = "COMPLETE" ∧
    (place_order envLiveComplete "RELIANCE-EQ" "SELL" 1 dbNone).db =
      some { position := "NONE", last_signal := "SELL", updated_at := 100 } ∧
    (place_order envLiveComplete "RELIANCE-EQ" "SELL" 1 dbNone).db ≠
      some (reconciledState envLiveComplete "RELIANCE-EQ" dbNone) ∧
    (place_order envLiveMissing "RELIANCE-EQ" "BUY" 1 dbNone).result.status
      = "UNKNOWN" ∧
    (place_order envLiveMissing "RELIANCE-EQ" "BUY" 1 dbNone).db =
      some (reconciledState envLiveMissing "RELIANCE-EQ" dbNone) := by
  have h := C1_complete_only_mutation envLiveComplete "RELIANCE-EQ" "SELL" 1
    dbNone "ord1"
    ({ status := true, data := [{ orderid := "ord1", orderstatus := "COMPLETE" }] })
    (Or.inr rfl) (by decide) rfl rfl (fun hh => absurd hh (by decide))
    (fun _ => by decide) rfl (by decide) rfl
  have h2 := (C1_complete_only_mutation envLiveMissing "RELIANCE-EQ" "BUY" 1
    dbNone "ord1"
    ({ status := true, data := [{ orderid := "other", orderstatus := "COMPLETE" }] })
    (Or.inl rfl) (by decide) rfl rfl (fun _ => by decide)
    (fun hh => absurd hh (by decide)) rfl (by decide) rfl).2.2
    (by
      intro o ho
      rw [List.mem_singleton] at ho
      subst ho
      decide)
  have hst : (place_order envLiveComplete "RELIANCE-EQ" "SELL" 1
      dbNone).result.status = "COMPLETE" := by decide
  refine ⟨by decide, hst, ?_, h.1.mpr hst, h2.1, h2.2.2⟩
  have hdb := h.2.1 hst
  rw [hdb]
  decide

/-- C2 counterexample: a dry-run SELL for RELIANCE-EQ against a broker
reporting an open long position returns DRY_RUN and never invokes
placeOrder, yet the TradeState row is mutated from NONE to LONG by the
reconciliation step that runs before the dry-run check, refuting the
claim that no Position Ledger entry is mutated at any point of a
dry-run call. -/
theorem C2_counterexample :
    (place_order envDryLong "RELIANCE-EQ" "SELL" 1 dbNone).result.status =
      "DRY_RUN" ∧
    (place_order envDryLong "RELIANCE-EQ" "SELL" 1 dbNone).placeOrderCalled =
      false ∧
    (place_order envDryLong "RELIANCE-EQ" "SELL" 1 dbNone).db ≠ dbNone := by
  refine ⟨?_, ?_, ?_⟩ <;> decide

/-- C2 amended: in dry-run mode placeOrder is never invoked and the only
possible write to the TradeState row is the broker reconciliation (and
row creation) performed before the dry-run check: the final ledger
state is either the initial one or exactly the reconciled one. -/
theorem C2_amended_dry_run (env : ExecEnv) (tsym signal : String) (q : Int)
    (db : Option TradeState) (hdry : env.dry_run = true) :
    (place_order env tsym signal q db).placeOrderCalled = false ∧
    ((place_order env tsym signal q db).db = db ∨
      (place_order env tsym signal q db).db =
        some (reconciledState env tsym db)) := by
  by_cases h1 : signal = "BUY" ∨ signal = "SELL"
  · by_cases h2 : q ≤ 0
    · simp [place_order, h1, h2]
    · by_cases h3 : signal = "BUY" ∧
          (reconciledState env tsym db).position = "LONG"
      · simp [place_order, h1, h2, h3]
      · by_cases h4 : signal = "SELL" ∧
            (reconciledState env tsym db).position = "NONE"
        · simp [place_order, h1, h2, h3, h4]
        · simp [place_order, h1, h2, h3, h4, hdry]
  · simp [place_order, h1]

/-- Witness for the amended C2: the dry-run SELL call of the
counterexample never submits and its ledger state is the reconciled
one. -/
theorem C2_amended_dry_run_witness :
    envDryLong.dry_run = true ∧
    ((place_order envDryLong "RELIANCE-EQ" "SELL" 1 dbNone).placeOrderCalled =
      false ∧
    ((place_order envDryLong "RELIANCE-EQ" "SELL" 1 dbNone).db = dbNone ∨
      (place_order envDryLong "RELIANCE-EQ" "SELL" 1 dbNone).db =
        some (reconciledState envDryLong "RELIANCE-EQ" dbNone))) :=
  ⟨rfl, C2_amended_dry_run envDryLong "RELIANCE-EQ" "SELL" 1 dbNone rfl⟩

/-- C3: a BUY signal whose post-reconciliation ledger position is LONG
is BLOCKED with no broker submission, and replaying the cycle any
number of times from that state yields BLOCKED every time with no
submission and no ledger change; symmetrically a SELL with position
NONE is BLOCKED with no submission. -/
theorem C3_blocked_idempotent (env : ExecEnv) (tsym : String) (q : Int)
    (db : Option TradeState) (hq : 0 < q)
    (hpos : (reconciledState env tsym db).position = "LONG") :
    (∀ n : Nat,
      (place_order env tsym "BUY" q
        ((stepDb env tsym "BUY" q)^[n] db)).result.status = "BLOCKED" ∧
      (place_order env tsym "BUY" q
        ((stepDb env tsym "BUY" q)^[n] db)).placeOrderCalled = false ∧
      (stepDb env tsym "BUY" q)^[n + 1] db =
        some (reconciledState env tsym db)) ∧
    (∀ db2 : Option TradeState,
      (reconciledState env tsym db2).position = "NONE" →
      (place_order env tsym "SELL" q db2).result.status = "BLOCKED" ∧
      (place_order env tsym "SELL" q db2).placeOrderCalled = false) := by
  have hiter : ∀ n : Nat, (stepDb env tsym "BUY" q)^[n + 1] db =
      some (reconciledState env tsym db) := by
    intro n
    induction n with
    | zero =>
      show stepDb env tsym "BUY" q db = _
      rw [stepDb, place_order_blocked_buy env tsym q db hq hpos]
    | succ n ih =>
      rw [Function.iterate_succ_apply', ih]
      have hp2 : (reconciledState env tsym
          (some (reconciledState env tsym db))).position = "LONG" := by
        rw [reconciledState_idem]
        exact hpos
      rw [stepDb, place_order_blocked_buy env tsym q _ hq hp2,
        reconciledState_idem]
  have hcur : ∀ n : Nat, (reconciledState env tsym
      ((stepDb env tsym "BUY" q)^[n] db)).position = "LONG" := by
    intro n
    cases n with
    | zero => simpa using hpos
    | succ m =>
      rw [hiter m, reconciledState_idem]
      exact hpos
  refine ⟨fun n => ?_, fun db2 hpos2 => ?_⟩
  · refine ⟨?_, ?_, hiter n⟩
    · rw [place_order_blocked_buy env tsym q _ hq (hcur n)]
    · rw [place_order_blocked_buy env tsym q _ hq (hcur n)]
  · rw [place_order_blocked_sell env tsym q db2 hq hpos2]
    exact ⟨rfl, rfl⟩

/-- Witness for C3: with the long-reporting broker, the second replay of
a BUY cycle is still BLOCKED with no submission and a stable ledger. -/
theorem C3_blocked_idempotent_witness :
    0 < (1 : Int) ∧
    (reconciledState envLiveComplete "RELIANCE-EQ" dbNone).position =
      "LONG" ∧
    (place_order envLiveComplete "RELIANCE-EQ" "BUY" 1
      ((stepDb envLiveComplete "RELIANCE-EQ" "BUY" 1)^[1] dbNone)).result.status
      = "BLOCKED" ∧
    (place_order envLiveComplete "RELIANCE-EQ" "BUY" 1
      ((stepDb envLiveComplete "RELIANCE-EQ" "BUY" 1)^[1] dbNone)).placeOrderCalled
      = false ∧
    (stepDb envLiveComplete "RELIANCE-EQ" "BUY" 1)^[2] dbNone =
      some (reconciledState envLiveComplete "RELIANCE-EQ" dbNone) :=
  ⟨by decide, by decide,
    ((C3_blocked_idempotent envLiveComplete "RELIANCE-EQ" 1 dbNone (by decide)
      (by decide)).1 1).1,
    ((C3_blocked_idempotent envLiveComplete "RELIANCE-EQ" 1 dbNone (by decide)
      (by decide)).1 1).2.1,
    ((C3_blocked_idempotent envLiveComplete "RELIANCE-EQ" 1 dbNone (by decide)
      (by decide)).1 1).2.2⟩

/-- C7 counterexample: a live BUY whose broker submission raises a
network exception yields status ERROR, not the claimed FAILED, with the
error message preserved and the ledger row untouched; FAILED is
reserved for structured broker rejections. -/
theorem C7_counterexample :
    (place_order envLiveSubmitError "RELIANCE-EQ" "BUY" 1
      dbNone).result.status = "ERROR" ∧
    (place_order envLiveSubmitError "RELIANCE-EQ" "BUY" 1
      dbNone).result.status ≠ "FAILED" ∧
    (place_order envLiveSubmitError "RELIANCE-EQ" "BUY" 1
      dbNone).result.errorMsg = some "Connection timeout" ∧
    (place_order envLiveSubmitError "RELIANCE-EQ" "BUY" 1 dbNone).db =
      dbNone := by
  refine ⟨?_, ?_, ?_, ?_⟩ <;> decide

/-- C7 amended: an exception during submission or polling of a live
attempt yields status ERROR (not FAILED) with the triggering message
preserved and no ledger write beyond the earlier reconciliation; an
exception during reconciliation is swallowed inside the position sync,
leaving the ledger unchanged there while the attempt continues; a
structured broker rejection yields FAILED with the broker message. -/
theorem C7_amended_error_handling (env : ExecEnv) (tsym signal : String)
    (q : Int) (db : Option TradeState)
    (hsig : signal = "BUY" ∨ signal = "SELL") (hq : 0 < q)
    (hdry : env.dry_run = false) (hlive : env.live_enabled = true)
    (hs1 : signal = "BUY" → (reconciledState env tsym db).position ≠ "LONG")
    (hs2 : signal = "SELL" → (reconciledState env tsym db).position ≠ "NONE") :
    (∀ e, env.broker.placeOrderResp = .error e →
      (place_order env tsym signal q db).result.status = "ERROR" ∧
      (place_order env tsym signal q db).result.errorMsg = some e ∧
      (place_order env tsym signal q db).result.status ≠ "FAILED" ∧
      (place_order env tsym signal q db).db =
        some (reconciledState env tsym db)) ∧
    (∀ e oid, env.broker.placeOrderResp = .ok (.asStr oid) → oid ≠ "" →
      env.broker.orderBookResp = .error e →
      (place_order env tsym signal q db).result.status = "ERROR" ∧
      (place_order env tsym signal q db).result.errorMsg = some e ∧
      (place_order env tsym signal q db).db =
        some (reconciledState env tsym db)) ∧
    (∀ e (db0 : Option TradeState),
      syncPosition (.error e) tsym env.now db0 = db0) ∧
    (∀ msg d, env.broker.placeOrderResp = .ok (.asDict false msg d) →
      (place_order env tsym signal q db).result.status = "FAILED" ∧
      (place_order env tsym signal q db).result.errorMsg = msg ∧
      (place_order env tsym signal q db).db =
        some (reconciledState env tsym db)) := by
  rw [place_order_live env tsym signal q db hsig hq hdry hlive hs1 hs2]
  refine ⟨fun e he => ?_, fun e oid hpl hoid hob => ?_, fun e db0 => rfl,
    fun msg d hpl => ?_⟩
  · simp [liveExecute, he]
  · simp [liveExecute, hpl, extractOrderId, if_neg hoid, hob]
  · simp [liveExecute, hpl, extractOrderId]

/-- Witness for the amended C7: the live BUY with a raising submission
from the counterexample environment, pushed through the amended
theorem. -/
theorem C7_amended_error_handling_witness :
    0 < (1 : Int) ∧
    (place_order envLiveSubmitError "RELIANCE-EQ" "BUY" 1
      dbNone).result.status = "ERROR" ∧
    (place_order envLiveSubmitError "RELIANCE-EQ" "BUY" 1
      dbNone).result.errorMsg = some "Connection timeout" ∧
    (place_order envLiveSubmitError "RELIANCE-EQ" "BUY" 1
      dbNone).result.status ≠ "FAILED" ∧
    (place_order envLiveSubmitError "RELIANCE-EQ" "BUY" 1 dbNone).db =
      some (reconciledState envLiveSubmitError "RELIANCE-EQ" dbNone) := by
  have h := (C7_amended_error_handling envLiveSubmitError "RELIANCE-EQ" "BUY"
    1 dbNone (Or.inl rfl) (by decide) rfl rfl (fun _ => by decide)
    (fun hh => absurd hh (by decide))).1 "Connection timeout" rfl
  exact ⟨by decide, h.1, h.2.1, h.2.2.1, h.2.2.2⟩

/-- Helper: the broker-position fold only ever produces NONE or LONG,
for any accumulator already in that set. -/
theorem brokerPositionFor_aux (tsym : String) (l : List PositionEntry) :
    ∀ acc : String, acc = "NONE" ∨ acc = "LONG" →
      (l.foldl (fun acc p =>
        if p.tradingsymbol = tsym ∧ 0 < p.netqty then "LONG" else acc) acc)
        = "NONE" ∨
      (l.foldl (fun acc p =>
        if p.tradingsymbol = tsym ∧ 0 < p.netqty then "LONG" else acc) acc)
        = "LONG" := by
  induction l with
  | nil => intro acc h; exact h
  | cons p l ih =>
    intro acc h
    simp only [List.foldl_cons]
    apply ih
    by_cases hp : p.tradingsymbol = tsym ∧ 0 < p.netqty
    · rw [if_pos hp]; exact Or.inr rfl
    · rw [if_neg hp]; exact h

/-- The position derived from a broker position response is NONE or
LONG. -/
theorem brokerPositionFor_ok (tsym : String) (l : List PositionEntry) :
    brokerPositionFor tsym l = "NONE" ∨ brokerPositionFor tsym l = "LONG" :=
  brokerPositionFor_aux tsym l "NONE" (Or.inl rfl)

/-- Position sync preserves the two-valued position invariant. -/
theorem syncPosition_ok (resp : Except String PositionsResp) (tsym : String)
    (now : Int) (db : Option TradeState) (h : positionOkB db = true) :
    positionOkB (syncPosition resp tsym now db) = true := by
  cases resp with
  | error e => simpa [syncPosition] using h
  | ok r =>
    by_cases hs : r.status = false
    · simpa [syncPosition, hs] using h
    · simp only [syncPosition, hs, Bool.false_eq_true, if_false, if_neg hs]
      by_cases hne : (db.getD (mkTradeState now)).position ≠
          brokerPositionFor tsym r.data
      · rw [if_pos hne]
        simp only [positionOkB]
        rcases brokerPositionFor_ok tsym r.data with hb | hb <;> simp [hb]
      · rw [if_neg hne]
        push_neg at hne
        simp only [positionOkB]
        rcases brokerPositionFor_ok tsym r.data with hb | hb <;>
          simp [hne, hb]

/-- The reconciled ledger state has position NONE or LONG whenever the
incoming state satisfies the invariant. -/
theorem reconciledState_ok (env : ExecEnv) (tsym : String)
    (db : Option TradeState) (h : positionOkB db = true) :
    (reconciledState env tsym db).position = "NONE" ∨
    (reconciledState env tsym db).position = "LONG" := by
  unfold reconciledState
  have hs := syncPosition_ok env.broker.positionResp tsym env.now db h
  cases hsp : syncPosition env.broker.positionResp tsym env.now db with
  | none => simp [mkTradeState]
  | some ts =>
    rw [hsp] at hs
    simp only [positionOkB] at hs
    simp only [Option.getD_some]
    rcases Bool.or_eq_true _ _ |>.mp hs with hb | hb
    · exact Or.inl (by simpa using hb)
    · exact Or.inr (by simpa using hb)

/-- C10: every write OrderService performs on the TradeState row keeps
the position field in the two-valued set NONE / LONG: both place_order
in any mode and the position sync on its own preserve the invariant, so
no operation can record a short or other position state. -/
theorem C10_position_invariant (env : ExecEnv) (tsym signal : String)
    (q : Int) (db : Option TradeState) (h : positionOkB db = true) :
    positionOkB (place_order env tsym signal q db).db = true ∧
    (∀ (resp : Except String PositionsResp) (now2 : Int),
      positionOkB (syncPosition resp tsym now2 db) = true) := by
  refine ⟨?_, fun resp now2 => syncPosition_ok resp tsym now2 db h⟩
  have hrec : positionOkB (some (reconciledState env tsym db)) = true := by
    simp only [positionOkB]
    rcases reconciledState_ok env tsym db h with hb | hb <;> simp [hb]
  by_cases h1 : signal = "BUY" ∨ signal = "SELL"
  · by_cases h2 : q ≤ 0
    · simpa [place_order, h1, h2] using h
    · by_cases h3 : signal = "BUY" ∧
          (reconciledState env tsym db).position = "LONG"
      · simpa [place_order, h1, h2, h3] using hrec
      · by_cases h4 : signal = "SELL" ∧
            (reconciledState env tsym db).position = "NONE"
        · simpa [place_order, h1, h2, h3, h4] using hrec
        · by_cases h5 : env.dry_run = true
          · simpa [place_order, h1, h2, h3, h4, h5] using hrec
          · by_cases h6 : env.live_enabled = false
            · simpa [place_order, h1, h2, h3, h4, h5, h6] using hrec
            · have hlv : place_order env tsym signal q db =
                  liveExecute env.broker signal env.now
                    (reconciledState env tsym db) := by
                simp [place_order, h1, h2, h3, h4, h5, h6]
              rw [hlv]
              unfold liveExecute
              cases env.broker.placeOrderResp with
              | error e => simpa using hrec
              | ok resp =>
                dsimp only
                cases extractOrderId resp with
                | error r => simpa using hrec
                | ok oid =>
                  dsimp only
                  cases env.broker.orderBookResp with
                  | error e => simpa using hrec
                  | ok ob =>
                    dsimp only
                    by_cases hc : finalStatusFrom ob oid = "COMPLETE"
                    · simp only [if_pos hc, positionOkB]
                      by_cases hb : signal = "BUY" <;> simp [hb]
                    · simp only [if_neg hc]
                      simpa using hrec
  · simpa [place_order, h1] using h

/-- Witness for C10 at the live completed SELL call of the C1 witness. -/
theorem C10_position_invariant_witness :
    positionOkB dbNone = true ∧
    positionOkB (place_order envLiveComplete "RELIANCE-EQ" "SELL" 1
      dbNone).db = true ∧
    (∀ (resp : Except String PositionsResp) (now2 : Int),
      positionOkB (syncPosition resp "RELIANCE-EQ" now2 dbNone) = true) :=
  ⟨by decide,
    (C10_position_invariant envLiveComplete "RELIANCE-EQ" "SELL" 1 dbNone
      (by decide)).1,
    (C10_position_invariant envLiveComplete "RELIANCE-EQ" "SELL" 1 dbNone
      (by decide)).2⟩

/-- C4: evaluation of the batch loop at the failing input: for a batch
of three active instruments, the call into the per-instrument engine
raises a TypeError (BatchTradingEngine.run passes keyword arguments
that TradingEngine.run does not accept) and, with no try/except in the
loop, the whole batch run aborts instead of returning one entry per
instrument. -/
theorem C4_batch_typeerror :
    batchEngineRun (fun _ => "PIPELINE_OK")
      [{ symbol := "INSTR1", exchange := "NSE", timeframe := "ONE_MINUTE" },
       { symbol := "INSTR2", exchange := "NSE", timeframe := "ONE_MINUTE" },
       { symbol := "INSTR3", exchange := "NSE", timeframe := "ONE_MINUTE" }] =
      .error "TypeError: run() got an unexpected keyword argument" := by
  decide
